import Mathlib

/-!
Verification of the apollo_configs client (src/apollo_configs/client.py).

The Python client is shallowly embedded: Python dicts become insertion-ordered
association lists, the HTTP transport and the filesystem become explicit data
(a `World` of network responses and a file map held in `ClientState`), and a
Python exception escaping a method becomes a `some PyErr` component of the
result.  External library behaviour (the `requests` transport, the stdlib
`json` codec, `os.path`) is modelled by its documented contract; everything
else is translated clause-for-clause from `client.py`.
-/

namespace Apollo

/-- Python dict lookup (`d.get(k)` / `k in d`): first binding wins; the model
keeps keys unique, matching dict semantics. -/
def dictGet {α : Type} : List (String × α) → String → Option α
  | [], _ => none
  | (k', v) :: rest, k => if k' = k then some v else dictGet rest k

/-- Python dict assignment `d[k] = v`: replaces in place (keeping insertion
position) when the key exists, appends otherwise. -/
def dictSet {α : Type} : List (String × α) → String → α → List (String × α)
  | [], k, v => [(k, v)]
  | (k', v') :: rest, k, v =>
    if k' = k then (k, v) :: rest else (k', v') :: dictSet rest k v

theorem dictGet_dictSet_self {α : Type} (d : List (String × α)) (k : String) (v : α) :
    dictGet (dictSet d k v) k = some v := by
  induction d with
  | nil => simp [dictGet, dictSet]
  | cons hd tl ih =>
    obtain ⟨k', v'⟩ := hd
    by_cases h : k' = k
    · simp [dictGet, dictSet, h]
    · simp [dictGet, dictSet, h, ih]

theorem dictGet_dictSet_ne {α : Type} (d : List (String × α)) (k k' : String) (v : α)
    (h : k' ≠ k) : dictGet (dictSet d k v) k' = dictGet d k' := by
  induction d with
  | nil => simp [dictGet, dictSet, Ne.symm h]
  | cons hd tl ih =>
    obtain ⟨k₀, v₀⟩ := hd
    by_cases h₀ : k₀ = k
    · subst h₀
      simp [dictGet, dictSet, Ne.symm h]
    · by_cases h₁ : k₀ = k'
      · simp [dictGet, dictSet, h₀, h₁, h]
      · simp [dictGet, dictSet, h₀, h₁, ih]

/-- `ApolloValue` (client.py): a versioned config value; the `update` field is
the change flag set by the diff pass. -/
structure ApolloValue where
  value : String
  update : Bool
deriving DecidableEq

/-- `self.configs[namespace]`: key → ApolloValue, insertion ordered. -/
abbrev ApolloConfig := List (String × ApolloValue)

/-- A flat `configurations` map as returned by the server / stored on disk. -/
abbrev ConfigDict := List (String × String)

/-- `ApolloServerResponse` (client.py). -/
structure ApolloServerResponse where
  release_key : String
  config : ConfigDict
deriving DecidableEq

/-- `ApolloSubscriber` (client.py).  The callback is an external capability and
is modelled by an opaque handle `action`; `notify` branches on
`subscriber.namespace is None`, so the namespace is carried as an option. -/
structure ApolloSubscriber where
  action : Nat
  priority : Int := 0
  «namespace» : Option String := some "application"
deriving DecidableEq

/-- A Python exception escaping a method boundary. -/
inductive PyErr where
  | valueError (msg : String)
  | indexError
  | keyError (k : String)
  | typeError
  | requestError
deriving DecidableEq

/-- Is this exception one of the `ValueError`s that §4.1 calls a
`DirectoryError`? -/
def PyErr.isValueError : PyErr → Bool
  | .valueError _ => true
  | _ => false

/-- Contract model of the stdlib `json` codec on snapshot files: `json.dumps`
of a configuration dict produces text that `json.load` decodes back to the
same dict; any other file text fails decoding (`JSONDecodeError`), and a
missing file raises `FileNotFoundError` (modelled by absence from the file
map). -/
inductive FileContent where
  | jsonOf (d : ConfigDict)
  | corrupt
deriving DecidableEq

/-- Parsed body of a `configs/{app}/{cluster}/{ns}` response: `data.get` is
used with defaults, so both fields are optional. -/
structure CfgBody where
  configurations? : Option ConfigDict := none
  releaseKey? : Option String := none
deriving DecidableEq

/-- One entry of the `services/config` response. -/
structure ServiceEntry where
  homepageUrl : String
deriving DecidableEq

/-- Outcome of one HTTP call: a response with a status code and an optional
parsed JSON body (`none` = `response.json()` raises), or a transport
exception (network error / timeout raised by `requests`). -/
inductive HttpWire (β : Type) where
  | resp (status : Nat) (body? : Option β)
  | exn
deriving DecidableEq

/-- The external world one sync pass runs against: the wire behaviour of the
config fetch and of the service-discovery fetch, plus the clock reading used
by `str(time.time())` when the response lacks a `releaseKey`. -/
structure World where
  config : HttpWire CfgBody
  service : HttpWire (List ServiceEntry)
  now : String

/-- The mutable fields of `ApolloClient` that the verified operations touch,
together with the snapshot directory contents (file name → file text). -/
structure ClientState where
  app_id : String
  «namespace» : String
  cache : List (String × ConfigDict)
  hash : List (String × String)
  files : List (String × FileContent)
  config_server_url : Option String
  configs : List (String × ApolloConfig)
  subscribers : List ApolloSubscriber
deriving DecidableEq

/-- Python truthiness of an `Optional[str]` (`if exclude:`). -/
def pyTruthyStr : Option String → Bool
  | none => false
  | some s => ¬ (s = "")

/-- Snapshot file name `{app_id}_configuration_{namespace}.txt`. -/
def cacheFileName (app ns : String) : String :=
  app ++ "_configuration_" ++ ns ++ ".txt"

/-- `ApolloClient.update_cache`: `self._cache[namespace] = data`. -/
def update_cache (st : ClientState) (ns : String) (d : ConfigDict) : ClientState :=
  { st with cache := dictSet st.cache ns d }

/-- `ApolloClient.update_local_file_cache`: write-avoidance on the release
key, then write `json.dumps(data)` to the snapshot file and record the key. -/
def update_local_file_cache (st : ClientState) (release_key : String)
    (data : ConfigDict) (ns : String) : ClientState :=
  if dictGet st.hash ns ≠ some release_key then
    { st with
      files := dictSet st.files (cacheFileName st.app_id ns) (.jsonOf data),
      hash := dictSet st.hash ns release_key }
  else st

/-- `ApolloClient.get_local_file_cache`: `json.load` the snapshot file,
returning `{}` on `FileNotFoundError` or `JSONDecodeError`. -/
def get_local_file_cache (st : ClientState) (ns : String) : ConfigDict :=
  match dictGet st.files (cacheFileName st.app_id ns) with
  | some (.jsonOf d) => d
  | some .corrupt => []
  | none => []

/-- `ApolloClient.get_service_conf`: non-200 raises `ValueError`; a body that
cannot be parsed as a list of endpoint descriptors raises `ValueError`; an
empty list raises `ValueError` inside the `try`, re-wrapped by the same
`except` clause.  A transport exception from the bare `get` propagates. -/
def get_service_conf (w : World) : Except PyErr (List ServiceEntry) :=
  match w.service with
  | .exn => .error .requestError
  | .resp status body? =>
    if status ≠ 200 then .error (.valueError "service-conf-status")
    else
      match body? with
      | none => .error (.valueError "service-conf-parse")
      | some l =>
        if l = [] then .error (.valueError "service-conf-empty")
        else .ok l

/-- Endpoint selection logic of `ApolloClient.update_config_server`: filter
out the excluded homepage URL when `exclude` is truthy, then take element 0
(an unguarded index: an empty filtered list raises `IndexError`). -/
def dirSelect (w : World) (exclude : Option String) : Except PyErr String :=
  match get_service_conf w with
  | .error e => .error e
  | .ok conf =>
    let conf' :=
      if pyTruthyStr exclude then
        conf.filter (fun s => s.homepageUrl ≠ exclude.getD "")
      else conf
    match conf' with
    | [] => .error .indexError
    | s :: _ => .ok s.homepageUrl

/-- `ApolloClient.update_config_server`: on success stores the selected URL in
`self._config_server_url`; any exception propagates with the state intact. -/
def update_config_server (st : ClientState) (w : World) (exclude : Option String) :
    ClientState × Option PyErr :=
  match dirSelect w exclude with
  | .error e => (st, some e)
  | .ok url => ({ st with config_server_url := some url }, none)

/-- The `except Exception` branch of `fetch_config_by_namespace`: fall back to
the local snapshot, install it in the cache, then trigger failover excluding
the current endpoint (an exception raised by the failover propagates). -/
def fetchExnPath (st : ClientState) (w : World) (ns : String) :
    ClientState × Option PyErr :=
  let d := get_local_file_cache st ns
  let st1 := update_cache st ns d
  update_config_server st1 w st1.config_server_url

/-- `ApolloClient.fetch_config_by_namespace`: on 200 parse the body (a raising
`response.json()` lands in the `except` branch), update the cache and
conditionally the snapshot file; on any other status fall back to the local
snapshot; on a transport exception fall back and then fail over. -/
def fetch_config_by_namespace (st : ClientState) (w : World) (ns : String) :
    ClientState × Option PyErr :=
  match w.config with
  | .exn => fetchExnPath st w ns
  | .resp status body? =>
    if status = 200 then
      match body? with
      | none => fetchExnPath st w ns
      | some body =>
        let configurations := body.configurations?.getD []
        let release_key := body.releaseKey?.getD w.now
        let st1 := update_cache st ns configurations
        (update_local_file_cache st1 release_key configurations ns, none)
    else
      (update_cache st ns (get_local_file_cache st ns), none)

/-- Model of `os.path.splitext` for the file names the client handles (no
leading-dot special case, which no generated snapshot name hits). -/
def splitext (name : String) : String × String :=
  let parts := name.splitOn "."
  match parts with
  | [] => (name, "")
  | [_] => (name, "")
  | _ => (String.intercalate "." parts.dropLast, "." ++ parts.getLastD "")

/-- Loop body of `load_local_cache_file` over the directory listing: skip
`.swp` files and foreign prefixes, recover the namespace as the last
`_`-separated token, and install each decodable snapshot; a corrupt file
raises inside the loop, caught by the function's own `except`, which returns
`False` keeping the updates made so far. -/
def load_go (st : ClientState) : List (String × FileContent) → ClientState × Bool
  | [] => (st, true)
  | (fname, content) :: rest =>
    let se := splitext fname
    if se.2 = ".swp" then load_go st rest
    else if ¬ se.1.startsWith (st.app_id ++ "_configuration_") then load_go st rest
    else
      let ns := (se.1.splitOn "_").getLastD ""
      match content with
      | .jsonOf d => load_go (update_cache st ns d) rest
      | .corrupt => (st, false)

/-- `ApolloClient.load_local_cache_file`. -/
def load_local_cache_file (st : ClientState) : ClientState × Bool :=
  load_go st st.files

/-- `ApolloClient.fetch_configuration`: one fetch for the client namespace;
any escaping exception is logged and answered by `load_local_cache_file`. -/
def fetch_configuration (st : ClientState) (w : World) : ClientState × Option PyErr :=
  let r := fetch_config_by_namespace st w st.«namespace»
  match r.2 with
  | none => r
  | some _ => ((load_local_cache_file r.1).1, none)

/-- One iteration of the diff loop in `ApolloClient.update` for key `k` with
server value `v`. -/
def applyKey (cfg : ApolloConfig) (k v : String) : ApolloConfig :=
  match dictGet cfg k with
  | some cur =>
    if cur.value ≠ v then dictSet cfg k ⟨v, true⟩
    else dictSet cfg k ⟨v, false⟩
  | none => dictSet cfg k ⟨v, true⟩

/-- The change flag `ApolloClient.update` assigns to key `k` given the cache
`cfg` it sees when processing `k`. -/
def changedFlag (cfg : ApolloConfig) (k v : String) : Bool :=
  match dictGet cfg k with
  | some cur => decide (cur.value ≠ v)
  | none => true

/-- The full diff loop of `ApolloClient.update` over the server map. -/
def updateNamespace (cfg : ApolloConfig) : List (String × String) → ApolloConfig
  | [] => cfg
  | (k, v) :: rest => updateNamespace (applyKey cfg k v) rest

/-- `ApolloClient.check_subscribers`: raise `ValueError` at the first
subscriber whose namespace differs from the client namespace. -/
def check_subscribers_go (ns : String) : List ApolloSubscriber → Option PyErr
  | [] => none
  | s :: rest =>
    if s.«namespace» ≠ some ns then some (.valueError "namespace-mismatch")
    else check_subscribers_go ns rest

/-- `ApolloClient.check_subscribers`. -/
def check_subscribers (st : ClientState) : Option PyErr :=
  check_subscribers_go st.«namespace» st.subscribers

/-- `ApolloClient.add_subscriber`: append first, validate afterwards — a
raised mismatch leaves the appended subscriber in the registry. -/
def add_subscriber (st : ClientState) (sub : ApolloSubscriber) :
    ClientState × Option PyErr :=
  let st' := { st with subscribers := st.subscribers ++ [sub] }
  (st', check_subscribers st')

/-- Stable insertion into a priority-descending list: the new element goes in
front of the first element whose priority is not larger (Python's stable
`sorted(..., reverse=True)` keeps earlier input first among equals). -/
def orderedInsertDesc (x : ApolloSubscriber) : List ApolloSubscriber → List ApolloSubscriber
  | [] => [x]
  | y :: ys =>
    if x.priority < y.priority then y :: orderedInsertDesc x ys
    else x :: y :: ys

/-- Model of `sorted(self._subscribers, key=priority, reverse=True)`: the
unique stable priority-descending sort. -/
def sortByPriorityDesc : List ApolloSubscriber → List ApolloSubscriber
  | [] => []
  | x :: xs => orderedInsertDesc x (sortByPriorityDesc xs)

/-- One delivered notification: which callback was invoked and the payload it
received (`none` models the `action(None)` branch). -/
structure NotifyEvent where
  action : Nat
  payload : Option ApolloConfig
deriving DecidableEq

/-- The notification loop of `ApolloClient.notify`: a subscriber with a `None`
namespace gets `None`; otherwise `self.configs[ns]` is indexed, raising
`KeyError` (and aborting the pass) when absent. -/
def notifyIter (configs : List (String × ApolloConfig)) :
    List ApolloSubscriber → List NotifyEvent × Option PyErr
  | [] => ([], none)
  | s :: rest =>
    match s.«namespace» with
    | none =>
      let r := notifyIter configs rest
      (⟨s.action, none⟩ :: r.1, r.2)
    | some ns =>
      match dictGet configs ns with
      | some c =>
        let r := notifyIter configs rest
        (⟨s.action, some c⟩ :: r.1, r.2)
      | none => ([], some (.keyError ns))

/-- `ApolloClient.notify`: re-binds `self._subscribers` to the sorted list,
then invokes each callback in that order. -/
def notify (st : ClientState) : ClientState × List NotifyEvent × Option PyErr :=
  let sorted := sortByPriorityDesc st.subscribers
  let r := notifyIter st.configs sorted
  ({ st with subscribers := sorted }, r.1, r.2)

/-- `ApolloClient.update`: ensure the namespace entry exists, run the diff
loop over the server map, then unconditionally notify. -/
def update (st : ClientState) (server_response : ApolloServerResponse) (ns : String) :
    ClientState × List NotifyEvent × Option PyErr :=
  let cfg0 := (dictGet st.configs ns).getD []
  let cfg1 := updateNamespace cfg0 server_response.config
  notify { st with configs := dictSet st.configs ns cfg1 }

/-- `ApolloClient.get_value`: namespace membership test, then
`dict.get(key, default_val)`. -/
def get_value (st : ClientState) (key : String) (default_val : Option String)
    (ns : String) : Option String :=
  match dictGet st.cache ns with
  | some d =>
    match dictGet d key with
    | some v => some v
    | none => default_val
  | none => default_val

/-- A Python value produced by `json.loads` (flat fragment: the objects the
client stores are string-to-string maps). -/
inductive PyJson where
  | null
  | bool (b : Bool)
  | num (n : Nat)
  | str (s : String)
  | obj (l : List (String × String))
deriving DecidableEq

/-- Python truthiness of a decoded JSON value. -/
def pyTruthy : PyJson → Bool
  | .null => false
  | .bool b => b
  | .num n => n ≠ 0
  | .str s => s ≠ ""
  | .obj l => l ≠ []

/-- Digit run of a JSON number (no leading zeros, handled by the caller). -/
def parseNatGo : List Char → Nat → Option Nat
  | [], acc => some acc
  | c :: rest, acc =>
    if 48 ≤ c.toNat ∧ c.toNat ≤ 57 then
      parseNatGo rest (acc * 10 + (c.toNat - 48))
    else none

/-- Body of a quoted JSON string up to the closing quote (no escapes in the
modelled fragment). -/
def strTail : List Char → Option (List Char)
  | [] => none
  | ['"'] => some []
  | c :: rest =>
    if c = '"' ∨ c = '\\' then none
    else
      match strTail rest with
      | some mid => some (c :: mid)
      | none => none

/-- Contract model of `json.loads` on a stored string value, covering the
fragment of the JSON grammar the claims exercise: the literals `null`,
`true`, `false`, unsigned integers without leading zeros, and simple quoted
strings without escapes.  Texts outside this fragment are treated as decode
failures. -/
def parseJson (s : String) : Option PyJson :=
  if s = "null" then some .null
  else if s = "true" then some (.bool true)
  else if s = "false" then some (.bool false)
  else
    match s.data with
    | [] => none
    | '"' :: rest =>
      match strTail rest with
      | some mid => some (.str (String.mk mid))
      | none => none
    | '0' :: _ :: _ => none
    | cs =>
      match parseNatGo cs 0 with
      | some n => some (.num n)
      | none => none

/-- The `return default_val or {}` tail of `get_json_value`. -/
def pyDefault : Option PyJson → PyJson
  | none => .obj []
  | some j => if pyTruthy j then j else .obj []

/-- `ApolloClient.get_json_value`: look the key up **without** the default
(`get_value(key, namespace=namespace)`), `json.loads` the result — a missing
value raises `TypeError`, bad text raises `JSONDecodeError`, both caught —
and fall back to `default_val or {}`. -/
def get_json_value (st : ClientState) (key : String) (default_val : Option PyJson)
    (ns : String) : PyJson :=
  match get_value st key none ns with
  | none => pyDefault default_val
  | some s =>
    match parseJson s with
    | some j => j
    | none => pyDefault default_val

theorem applyKey_lookup_self (cfg : ApolloConfig) (k v : String) :
    dictGet (applyKey cfg k v) k = some ⟨v, changedFlag cfg k v⟩ := by
  unfold applyKey changedFlag
  cases h : dictGet cfg k with
  | none => simp [dictGet_dictSet_self]
  | some cur =>
    by_cases hv : cur.value ≠ v
    · simp [hv, dictGet_dictSet_self]
    · simp [hv, dictGet_dictSet_self]

theorem applyKey_lookup_ne (cfg : ApolloConfig) (k k' v : String) (h : k' ≠ k) :
    dictGet (applyKey cfg k v) k' = dictGet cfg k' := by
  unfold applyKey
  cases dictGet cfg k with
  | none => exact dictGet_dictSet_ne _ _ _ _ h
  | some cur =>
    by_cases hv : cur.value ≠ v
    · simp only [if_pos hv]
      exact dictGet_dictSet_ne _ _ _ _ h
    · simp only [if_neg hv]
      exact dictGet_dictSet_ne _ _ _ _ h

theorem updateNamespace_lookup_not_mem :
    ∀ (remote : List (String × String)) (cfg : ApolloConfig) (k : String),
      k ∉ remote.map Prod.fst →
      dictGet (updateNamespace cfg remote) k = dictGet cfg k := by
  intro remote
  induction remote with
  | nil => intro cfg k _; rfl
  | cons hd tl ih =>
    intro cfg k h
    obtain ⟨k0, v0⟩ := hd
    simp only [List.map_cons, List.mem_cons, not_or] at h
    rw [updateNamespace, ih _ _ h.2, applyKey_lookup_ne _ _ _ _ h.1]

theorem updateNamespace_lookup_mem :
    ∀ (remote : List (String × String)) (cfg : ApolloConfig) (k v : String),
      (remote.map Prod.fst).Nodup → (k, v) ∈ remote →
      dictGet (updateNamespace cfg remote) k = some ⟨v, changedFlag cfg k v⟩ := by
  intro remote
  induction remote with
  | nil => intro cfg k v _ hmem; cases hmem
  | cons hd tl ih =>
    intro cfg k v hnd hmem
    obtain ⟨k0, v0⟩ := hd
    simp only [List.map_cons, List.nodup_cons] at hnd
    rw [updateNamespace]
    rcases List.mem_cons.mp hmem with heq | htl
    · cases heq
      rw [updateNamespace_lookup_not_mem _ _ _ hnd.1, applyKey_lookup_self]
    · have hk0 : k ≠ k0 := by
        intro hh
        subst hh
        exact hnd.1 (List.mem_map.mpr ⟨(k, v), htl, rfl⟩)
      rw [ih _ _ _ hnd.2 htl]
      unfold changedFlag
      rw [applyKey_lookup_ne _ _ _ _ hk0]

theorem perm_orderedInsertDesc :
    ∀ (l : List ApolloSubscriber) (x : ApolloSubscriber),
      (orderedInsertDesc x l).Perm (x :: l) := by
  intro l
  induction l with
  | nil => intro x; exact List.Perm.refl _
  | cons y ys ih =>
    intro x
    rw [orderedInsertDesc]
    by_cases h : x.priority < y.priority
    · rw [if_pos h]
      exact List.Perm.trans (List.Perm.cons y (ih x)) (List.Perm.swap x y ys)
    · rw [if_neg h]

theorem mem_orderedInsertDesc (l : List ApolloSubscriber) (x z : ApolloSubscriber) :
    z ∈ orderedInsertDesc x l ↔ z = x ∨ z ∈ l := by
  rw [(perm_orderedInsertDesc l x).mem_iff, List.mem_cons]

theorem pairwise_orderedInsertDesc :
    ∀ (l : List ApolloSubscriber) (x : ApolloSubscriber),
      l.Pairwise (fun a b => b.priority ≤ a.priority) →
      (orderedInsertDesc x l).Pairwise (fun a b => b.priority ≤ a.priority) := by
  intro l
  induction l with
  | nil => intro x _; simp [orderedInsertDesc]
  | cons y ys ih =>
    intro x h
    have hp := List.pairwise_cons.mp h
    rw [orderedInsertDesc]
    by_cases hxy : x.priority < y.priority
    · rw [if_pos hxy]
      refine List.pairwise_cons.mpr ⟨?_, ih x hp.2⟩
      intro z hz
      rcases (mem_orderedInsertDesc ys x z).mp hz with rfl | hzys
      · exact le_of_lt hxy
      · exact hp.1 z hzys
    · rw [if_neg hxy]
      refine List.pairwise_cons.mpr ⟨?_, h⟩
      intro z hz
      rcases List.mem_cons.mp hz with rfl | hzys
      · exact not_lt.mp hxy
      · exact le_trans (hp.1 z hzys) (not_lt.mp hxy)

theorem filter_orderedInsertDesc (p : Int) :
    ∀ (l : List ApolloSubscriber) (x : ApolloSubscriber),
      (orderedInsertDesc x l).filter (fun s => decide (s.priority = p)) =
        if x.priority = p then
          x :: l.filter (fun s => decide (s.priority = p))
        else l.filter (fun s => decide (s.priority = p)) := by
  intro l
  induction l with
  | nil =>
    intro x
    by_cases hx : x.priority = p <;> simp [orderedInsertDesc, List.filter, hx]
  | cons y ys ih =>
    intro x
    rw [orderedInsertDesc]
    by_cases hxy : x.priority < y.priority
    · rw [if_pos hxy]
      by_cases hx : x.priority = p
      · have hy : ¬ y.priority = p := by omega
        simp [List.filter_cons, hx, hy, ih]
      · by_cases hy : y.priority = p <;> simp [List.filter_cons, hx, hy, ih]
    · rw [if_neg hxy]
      by_cases hx : x.priority = p <;> simp [List.filter_cons, hx]

theorem sortByPriorityDesc_pairwise (l : List ApolloSubscriber) :
    (sortByPriorityDesc l).Pairwise (fun a b => b.priority ≤ a.priority) := by
  induction l with
  | nil => simp [sortByPriorityDesc]
  | cons x xs ih => exact pairwise_orderedInsertDesc _ x ih

theorem sortByPriorityDesc_perm (l : List ApolloSubscriber) :
    (sortByPriorityDesc l).Perm l := by
  induction l with
  | nil => exact List.Perm.refl _
  | cons x xs ih =>
    exact List.Perm.trans (perm_orderedInsertDesc _ x) (List.Perm.cons x ih)

theorem sortByPriorityDesc_filter (l : List ApolloSubscriber) (p : Int) :
    (sortByPriorityDesc l).filter (fun s => decide (s.priority = p)) =
      l.filter (fun s => decide (s.priority = p)) := by
  induction l with
  | nil => rfl
  | cons x xs ih =>
    rw [sortByPriorityDesc, filter_orderedInsertDesc]
    by_cases hx : x.priority = p <;> simp [List.filter_cons, hx, ih]

/-- `self.configs[s.namespace]` will not raise for subscriber `s`. -/
def resolvable (configs : List (String × ApolloConfig)) (s : ApolloSubscriber) : Bool :=
  match s.«namespace» with
  | none => true
  | some ns => (dictGet configs ns).isSome

theorem notifyIter_total :
    ∀ (subs : List ApolloSubscriber) (configs : List (String × ApolloConfig)),
      (∀ s ∈ subs, resolvable configs s = true) →
      (notifyIter configs subs).1.map NotifyEvent.action =
          subs.map ApolloSubscriber.action
        ∧ (notifyIter configs subs).2 = none := by
  intro subs
  induction subs with
  | nil => intro configs _; exact ⟨rfl, rfl⟩
  | cons s rest ih =>
    intro configs h
    have hs := h s (List.mem_cons_self s rest)
    have hrest := ih configs (fun t ht => h t (List.mem_cons_of_mem s ht))
    cases hns : s.«namespace» with
    | none =>
      simp only [notifyIter, hns, List.map_cons]
      exact ⟨by rw [hrest.1], hrest.2⟩
    | some ns =>
      unfold resolvable at hs
      rw [hns] at hs
      obtain ⟨c, hc⟩ := Option.isSome_iff_exists.mp hs
      simp only [notifyIter, hns, hc, List.map_cons]
      exact ⟨by rw [hrest.1], hrest.2⟩

theorem update_config_server_cache (st : ClientState) (w : World) (x : Option String) :
    (update_config_server st w x).1.cache = st.cache := by
  unfold update_config_server
  cases dirSelect w x <;> rfl

theorem update_local_file_cache_cache (st : ClientState) (rk : String)
    (d : ConfigDict) (ns : String) :
    (update_local_file_cache st rk d ns).cache = st.cache := by
  unfold update_local_file_cache
  split <;> rfl

/-- The exception (if any) escaping `update_config_server`, as a function of
the wire outcome and the exclusion only. -/
def dirSelectErr (w : World) (x : Option String) : Option PyErr :=
  match dirSelect w x with
  | .ok _ => none
  | .error e => some e

theorem update_config_server_err (st : ClientState) (w : World) (x : Option String) :
    (update_config_server st w x).2 = dirSelectErr w x := by
  unfold update_config_server dirSelectErr
  cases dirSelect w x <;> rfl

/-- C3: for every namespace and remote configuration map, `update` stores, for
each remote key, the server value with `changed=false` when the cached value
is equal, `changed=true` when it differs, and `changed=true` when the key is
new (all three cases are `changedFlag` of the pre-update cache); and after the
diff loop it invokes notification unconditionally — one callback invocation
per registered subscriber even when no key changed. -/
theorem update_flags_and_notify (st : ClientState) (resp : ApolloServerResponse)
    (ns : String) :
    (∀ k v, (resp.config.map Prod.fst).Nodup → (k, v) ∈ resp.config →
      dictGet ((dictGet (update st resp ns).1.configs ns).getD []) k =
        some ⟨v, changedFlag ((dictGet st.configs ns).getD []) k v⟩)
    ∧ ((∀ s ∈ st.subscribers, resolvable (update st resp ns).1.configs s = true) →
        (update st resp ns).2.1.length = st.subscribers.length
        ∧ (update st resp ns).2.2 = none) := by
  constructor
  · intro k v hnd hmem
    have hcfgs : (update st resp ns).1.configs =
        dictSet st.configs ns
          (updateNamespace ((dictGet st.configs ns).getD []) resp.config) := rfl
    rw [hcfgs, dictGet_dictSet_self, Option.getD_some]
    exact updateNamespace_lookup_mem _ _ _ _ hnd hmem
  · intro h
    have hperm := sortByPriorityDesc_perm st.subscribers
    have h' : ∀ s ∈ sortByPriorityDesc st.subscribers,
        resolvable (update st resp ns).1.configs s = true :=
      fun s hs => h s (hperm.mem_iff.mp hs)
    have ht := notifyIter_total (sortByPriorityDesc st.subscribers)
      (update st resp ns).1.configs h'
    have hev : (update st resp ns).2.1 =
        (notifyIter (update st resp ns).1.configs
          (sortByPriorityDesc st.subscribers)).1 := rfl
    have herr : (update st resp ns).2.2 =
        (notifyIter (update st resp ns).1.configs
          (sortByPriorityDesc st.subscribers)).2 := rfl
    refine ⟨?_, herr.trans ht.2⟩
    have := congrArg List.length ht.1
    simp only [List.length_map] at this
    rw [hev, this, hperm.length_eq]

/-- Concrete client for the C3 witness: one cached key with a stale `true`
flag and one subscriber. -/
def stW3 : ClientState :=
  ⟨"app", "application", [], [], [], none,
    [("application", [("k", ⟨"1", true⟩)])], [⟨7, 1, some "application"⟩]⟩

theorem update_flags_and_notify_witness :
    dictGet ((dictGet (update stW3 ⟨"r", [("k", "1")]⟩ "application").1.configs
        "application").getD []) "k" = some ⟨"1", false⟩
    ∧ (update stW3 ⟨"r", [("k", "1")]⟩ "application").2.1.length = 1
    ∧ (update stW3 ⟨"r", [("k", "1")]⟩ "application").2.2 = none := by
  have h := update_flags_and_notify stW3 ⟨"r", [("k", "1")]⟩ "application"
  have h1 := h.1 "k" "1" (by decide) (by decide)
  have h2 := h.2 (by decide)
  exact ⟨h1.trans (by decide), h2.1.trans (by decide), h2.2⟩

/-- C4: keys in the cache but absent from the remote map survive `update`
with value and flag untouched, and other namespaces are untouched — the
cache is additive across fetches. -/
theorem update_frame (st : ClientState) (resp : ApolloServerResponse) (ns : String) :
    (∀ k, k ∉ resp.config.map Prod.fst →
      dictGet ((dictGet (update st resp ns).1.configs ns).getD []) k =
        dictGet ((dictGet st.configs ns).getD []) k)
    ∧ (∀ ns', ns' ≠ ns →
        dictGet (update st resp ns).1.configs ns' = dictGet st.configs ns') := by
  constructor
  · intro k hk
    have hcfgs : (update st resp ns).1.configs =
        dictSet st.configs ns
          (updateNamespace ((dictGet st.configs ns).getD []) resp.config) := rfl
    rw [hcfgs, dictGet_dictSet_self, Option.getD_some]
    exact updateNamespace_lookup_not_mem _ _ _ hk
  · intro ns' hns
    have hcfgs : (update st resp ns).1.configs =
        dictSet st.configs ns
          (updateNamespace ((dictGet st.configs ns).getD []) resp.config) := rfl
    rw [hcfgs]
    exact dictGet_dictSet_ne _ _ _ _ hns

/-- Concrete client for the C4 witness. -/
def stW4 : ClientState :=
  ⟨"app", "application", [], [], [], none,
    [("application", [("old", ⟨"x", true⟩)]), ("other", [("o", ⟨"y", false⟩)])], []⟩

theorem update_frame_witness :
    dictGet ((dictGet (update stW4 ⟨"r", [("new", "1")]⟩ "application").1.configs
        "application").getD []) "old" = some ⟨"x", true⟩
    ∧ dictGet (update stW4 ⟨"r", [("new", "1")]⟩ "application").1.configs "other" =
        some [("o", ⟨"y", false⟩)] := by
  have h := update_frame stW4 ⟨"r", [("new", "1")]⟩ "application"
  exact ⟨(h.1 "old" (by decide)).trans (by decide),
    (h.2 "other" (by decide)).trans (by decide)⟩

/-- Concrete starting state refuting C5 as stated: a cached key with a stale
`changed=true` flag that the remote map does not mention. -/
def stW5 : ClientState :=
  ⟨"app", "application", [], [], [], none,
    [("application", [("k", ⟨"v", true⟩)])], []⟩

/-- C5 counterexample: syncing twice with the same remote map `{a: 1}` leaves
the untouched key `k` carrying `changed=true` after the second call, so not
every starting cache state ends with no `changed=true` flags. -/
theorem update_idempotent_counterexample :
    dictGet ((dictGet (update (update stW5 ⟨"r", [("a", "1")]⟩ "application").1
        ⟨"r", [("a", "1")]⟩ "application").1.configs "application").getD []) "k" =
      some ⟨"v", true⟩
    ∧ (⟨"v", true⟩ : ApolloValue).update = true := by
  exact ⟨by decide, rfl⟩

/-- C5 (amended): applying `update` twice with the same remote map leaves
every key **of the remote map** with `changed=false` after the second call;
keys outside the remote map keep their prior flags. -/
theorem update_idempotent_amended (st : ClientState) (resp : ApolloServerResponse)
    (ns : String) (k v : String) (hnd : (resp.config.map Prod.fst).Nodup)
    (hmem : (k, v) ∈ resp.config) :
    dictGet ((dictGet (update (update st resp ns).1 resp ns).1.configs ns).getD [])
      k = some ⟨v, false⟩ := by
  have hcfgs1 : (update st resp ns).1.configs =
      dictSet st.configs ns
        (updateNamespace ((dictGet st.configs ns).getD []) resp.config) := rfl
  have hcfgs2 : (update (update st resp ns).1 resp ns).1.configs =
      dictSet (update st resp ns).1.configs ns
        (updateNamespace ((dictGet (update st resp ns).1.configs ns).getD [])
          resp.config) := rfl
  have hinner : (dictGet (update st resp ns).1.configs ns).getD [] =
      updateNamespace ((dictGet st.configs ns).getD []) resp.config := by
    rw [hcfgs1, dictGet_dictSet_self, Option.getD_some]
  rw [hcfgs2, dictGet_dictSet_self, Option.getD_some, hinner,
    updateNamespace_lookup_mem _ _ _ _ hnd hmem]
  have h1 := updateNamespace_lookup_mem resp.config
    ((dictGet st.configs ns).getD []) k v hnd hmem
  unfold changedFlag
  rw [h1]
  simp

/-- Concrete client for the C5 witness. -/
def stW5b : ClientState :=
  ⟨"app", "application", [], [], [], none, [], []⟩

theorem update_idempotent_witness :
    dictGet ((dictGet (update (update stW5b ⟨"r", [("a", "1")]⟩ "application").1
        ⟨"r", [("a", "1")]⟩ "application").1.configs "application").getD []) "a" =
      some ⟨"1", false⟩ :=
  update_idempotent_amended stW5b ⟨"r", [("a", "1")]⟩ "application" "a" "1"
    (by decide) (by decide)

/-- C6: `notify` processes subscribers in priority-descending order produced
by a stable sort — the order is sorted (descending), a permutation of the
registry, and subscribers of equal priority keep their registration order
(the filter at every priority is unchanged); callbacks are invoked in exactly
that order, and the concrete priorities [1, 5, 3] are notified as [5, 3, 1]. -/
theorem notify_priority_order :
    (∀ subs : List ApolloSubscriber,
      (sortByPriorityDesc subs).Pairwise (fun a b => b.priority ≤ a.priority)
      ∧ (sortByPriorityDesc subs).Perm subs
      ∧ ∀ p : Int,
          (sortByPriorityDesc subs).filter (fun s => decide (s.priority = p)) =
            subs.filter (fun s => decide (s.priority = p)))
    ∧ (∀ st : ClientState,
      (notify st).1.subscribers = sortByPriorityDesc st.subscribers
      ∧ ((∀ s ∈ st.subscribers, resolvable st.configs s = true) →
          (notify st).2.1.map NotifyEvent.action =
            (sortByPriorityDesc st.subscribers).map ApolloSubscriber.action))
    ∧ (sortByPriorityDesc
        [⟨0, 1, some "application"⟩, ⟨1, 5, some "application"⟩,
          ⟨2, 3, some "application"⟩]).map (fun s => s.priority) = [5, 3, 1] := by
  refine ⟨fun subs => ⟨sortByPriorityDesc_pairwise subs, sortByPriorityDesc_perm subs,
    sortByPriorityDesc_filter subs⟩, fun st => ⟨rfl, ?_⟩, by decide⟩
  intro h
  have h' : ∀ s ∈ sortByPriorityDesc st.subscribers, resolvable st.configs s = true :=
    fun s hs => h s ((sortByPriorityDesc_perm st.subscribers).mem_iff.mp hs)
  exact (notifyIter_total (sortByPriorityDesc st.subscribers) st.configs h').1

/-- Concrete client for the C6 witness: subscribers registered with
priorities 1, 5, 3 (action handles 0, 1, 2). -/
def stW6 : ClientState :=
  ⟨"app", "application", [], [], [], none, [("application", [])],
    [⟨0, 1, some "application"⟩, ⟨1, 5, some "application"⟩,
      ⟨2, 3, some "application"⟩]⟩

theorem notify_priority_order_witness :
    (notify stW6).2.1.map NotifyEvent.action = [1, 2, 0] := by
  have h := (notify_priority_order.2.1 stW6).2 (by decide)
  exact h.trans (by decide)

/-- C7: writing a namespace's configuration to the snapshot store under a
release key that differs from the last-written one, then reading it back with
no intervening fetch, yields a structurally identical map; the release key is
recorded as last-written. -/
theorem snapshot_round_trip (st : ClientState) (ns release_key : String)
    (data : ConfigDict) (h : dictGet st.hash ns ≠ some release_key) :
    get_local_file_cache (update_local_file_cache st release_key data ns) ns = data
    ∧ dictGet (update_local_file_cache st release_key data ns).hash ns =
        some release_key := by
  unfold update_local_file_cache
  rw [if_pos h]
  exact ⟨by unfold get_local_file_cache; rw [dictGet_dictSet_self],
    dictGet_dictSet_self _ _ _⟩

/-- Concrete client for the C7 witness: a fresh store, release key `r1`. -/
def stW7 : ClientState :=
  ⟨"app", "application", [], [], [], none, [], []⟩

theorem snapshot_round_trip_witness :
    get_local_file_cache (update_local_file_cache stW7 "r1" [("a", "b")]
        "application") "application" = [("a", "b")]
    ∧ dictGet (update_local_file_cache stW7 "r1" [("a", "b")] "application").hash
        "application" = some "r1" :=
  snapshot_round_trip stW7 "application" "r1" [("a", "b")] (by decide)

/-- C8: when the resolution call returns HTTP 200 with a parsable non-empty
list, `update_config_server` picks the first endpoint after removing the
excluded one and stores its URL as the active endpoint; and it fails with a
directory error (a `ValueError`) when the call does not return 200, when the
body cannot be parsed as a list of endpoint descriptors, or when the resolved
list is empty. -/
theorem server_directory_selection (st : ClientState) (w : World)
    (exclude : Option String) :
    (∀ l e rest, w.service = .resp 200 (some l) →
      (if pyTruthyStr exclude then
          l.filter (fun s => s.homepageUrl ≠ exclude.getD "")
        else l) = e :: rest →
      update_config_server st w exclude =
        ({ st with config_server_url := some e.homepageUrl }, none))
    ∧ (∀ status b, w.service = .resp status b → status ≠ 200 →
        ∃ m, (update_config_server st w exclude).2 = some (.valueError m))
    ∧ (w.service = .resp 200 none →
        ∃ m, (update_config_server st w exclude).2 = some (.valueError m))
    ∧ (w.service = .resp 200 (some []) →
        ∃ m, (update_config_server st w exclude).2 = some (.valueError m)) := by
  refine ⟨?_, ?_, ?_, ?_⟩
  · intro l e rest hw hf
    have hl : l ≠ [] := by
      intro h0
      subst h0
      cases hpt : pyTruthyStr exclude <;> simp [hpt] at hf
    unfold update_config_server dirSelect get_service_conf
    rw [hw]
    simp only [ne_eq, not_true_eq_false, if_false, hl, if_neg]
    rw [hf]
  · intro status b hw h200
    refine ⟨"service-conf-status", ?_⟩
    unfold update_config_server dirSelect get_service_conf
    rw [hw]
    simp [h200]
  · intro hw
    refine ⟨"service-conf-parse", ?_⟩
    unfold update_config_server dirSelect get_service_conf
    rw [hw]
    simp
  · intro hw
    refine ⟨"service-conf-empty", ?_⟩
    unfold update_config_server dirSelect get_service_conf
    rw [hw]
    simp

/-- Concrete client for the C8 witness. -/
def stW8 : ClientState :=
  ⟨"app", "application", [], [], [], some "http://a/", [], []⟩

theorem server_directory_selection_witness :
    (update_config_server stW8 ⟨.exn, .resp 200 (some [⟨"http://a/"⟩, ⟨"http://b/"⟩]),
        "0"⟩ (some "http://a/")).1.config_server_url = some "http://b/"
    ∧ (∃ m, (update_config_server stW8 ⟨.exn, .resp 500 (some [⟨"http://a/"⟩]), "0"⟩
        none).2 = some (.valueError m))
    ∧ (∃ m, (update_config_server stW8 ⟨.exn, .resp 200 none, "0"⟩ none).2 =
        some (.valueError m))
    ∧ (∃ m, (update_config_server stW8 ⟨.exn, .resp 200 (some []), "0"⟩ none).2 =
        some (.valueError m)) := by
  refine ⟨?_, ?_, ?_, ?_⟩
  · have h := (server_directory_selection stW8
      ⟨.exn, .resp 200 (some [⟨"http://a/"⟩, ⟨"http://b/"⟩]), "0"⟩
      (some "http://a/")).1 [⟨"http://a/"⟩, ⟨"http://b/"⟩] ⟨"http://b/"⟩ [] rfl
      (by decide)
    rw [h]
  · exact (server_directory_selection stW8
      ⟨.exn, .resp 500 (some [⟨"http://a/"⟩]), "0"⟩ none).2.1 500 (some [⟨"http://a/"⟩])
      rfl (by decide)
  · exact (server_directory_selection stW8 ⟨.exn, .resp 200 none, "0"⟩ none).2.2.1 rfl
  · exact (server_directory_selection stW8 ⟨.exn, .resp 200 (some []), "0"⟩
      none).2.2.2 rfl

/-- C9: when every resolved endpoint equals the (truthy) excluded one, the
exclusion filter empties the list and the unguarded index raises an
`IndexError`, not a directory `ValueError` — the empty-list check ran before
filtering. -/
theorem exclusion_empty_index_error (st : ClientState) (w : World) (ex : String)
    (l : List ServiceEntry) (hw : w.service = .resp 200 (some l)) (hne : l ≠ [])
    (hall : ∀ s ∈ l, s.homepageUrl = ex) (hex : ex ≠ "") :
    (update_config_server st w (some ex)).2 = some PyErr.indexError
    ∧ PyErr.isValueError PyErr.indexError = false := by
  refine ⟨?_, rfl⟩
  have hfilter : l.filter (fun s => s.homepageUrl ≠ (some ex).getD "") = [] := by
    rw [List.filter_eq_nil_iff]
    intro a ha
    simp [hall a ha]
  unfold update_config_server dirSelect get_service_conf
  rw [hw]
  have hpt : pyTruthyStr (some ex) = true := by simp [pyTruthyStr, hex]
  simp only [ne_eq, not_true_eq_false, if_false, hne, if_neg, hpt, if_true, hfilter]

theorem exclusion_empty_index_error_witness :
    (update_config_server ⟨"app", "application", [], [], [], some "http://a/", [], []⟩
        ⟨.exn, .resp 200 (some [⟨"http://a/"⟩]), "0"⟩ (some "http://a/")).2 =
      some PyErr.indexError :=
  (exclusion_empty_index_error _ _ "http://a/" [⟨"http://a/"⟩] rfl (by decide)
    (by decide) (by decide)).1

/-- Concrete client with namespace `application` for exercising C2. -/
def stC2 : ClientState :=
  ⟨"app", "application", [], [], [], none, [], []⟩

/-- The mismatched subscriber registered in the C2 scenario. -/
def subC2 : ApolloSubscriber := ⟨0, 1, some "other"⟩

/-- C2: registering a subscriber whose namespace differs from the client's
does raise the namespace-mismatch `ValueError`, but — because
`add_subscriber` appends before validating — the mismatched subscriber
remains in the registry after the failed registration, contradicting the
registry-unchanged half of the claim. -/
theorem add_subscriber_mismatch_bug :
    (add_subscriber stC2 subC2).2 = some (.valueError "namespace-mismatch")
    ∧ (add_subscriber stC2 subC2).1.subscribers = [subC2] := by
  exact ⟨by decide, by decide⟩

/-- Concrete client for the C10 counterexample: the stored value `"null"`
parses as JSON null. -/
def stC10 : ClientState :=
  ⟨"app", "application", [("application", [("k", "null")])], [], [], none, [], []⟩

/-- C10 counterexample: with the string value `"null"` stored under `k`,
`get_json_value` returns Python `None` (JSON null), so it is not true that it
never returns None. -/
theorem get_json_value_counterexample :
    get_json_value stC10 "k" none "application" = PyJson.null := by decide

/-- C10 (amended): `get_json_value` returns the parsed value whenever the
stored string parses as JSON — including `None` when it parses as JSON null —
and only when the value is absent or fails to parse does it return
`default_val` if truthy and `{}` otherwise (so a caller passing
`default_val=None` receives `{}`); the lookup itself is made without
`default_val`, and the default branch can never yield `None`. -/
theorem get_json_value_amended (st : ClientState) (key ns : String)
    (dv : Option PyJson) :
    (get_value st key none ns = none → get_json_value st key dv ns = pyDefault dv)
    ∧ (∀ s, get_value st key none ns = some s → parseJson s = none →
        get_json_value st key dv ns = pyDefault dv)
    ∧ (∀ s j, get_value st key none ns = some s → parseJson s = some j →
        get_json_value st key dv ns = j)
    ∧ (∀ dv' : Option PyJson, pyDefault dv' ≠ PyJson.null)
    ∧ pyDefault none = PyJson.obj [] := by
  refine ⟨?_, ?_, ?_, ?_, rfl⟩
  · intro h
    unfold get_json_value
    rw [h]
  · intro s h hp
    unfold get_json_value
    rw [h]
    show (match parseJson s with
      | some j => j
      | none => pyDefault dv) = pyDefault dv
    rw [hp]
  · intro s j h hp
    unfold get_json_value
    rw [h]
    show (match parseJson s with
      | some j => j
      | none => pyDefault dv) = j
    rw [hp]
  · intro dv'
    match dv' with
    | none => simp [pyDefault]
    | some j =>
      cases j <;> simp [pyDefault, pyTruthy] <;> split <;> simp_all

/-- Concrete client for the C10 witness: an absent key, an unparsable value
and a parsable value. -/
def stW10 : ClientState :=
  ⟨"app", "application",
    [("application", [("bad", "not json"), ("good", "42")])], [], [], none, [], []⟩

theorem get_json_value_witness :
    get_json_value stW10 "missing" (some (.obj [("d", "1")])) "application" =
      .obj [("d", "1")]
    ∧ get_json_value stW10 "bad" none "application" = .obj []
    ∧ get_json_value stW10 "good" (some (.obj [("d", "1")])) "application" =
      .num 42 := by
  refine ⟨?_, ?_, ?_⟩
  · have h := (get_json_value_amended stW10 "missing" "application"
      (some (.obj [("d", "1")]))).1 (by decide)
    exact h.trans (by decide)
  · have h := (get_json_value_amended stW10 "bad" "application" none).2.1
      "not json" (by decide) (by decide)
    exact h.trans (by decide)
  · exact (get_json_value_amended stW10 "good" "application"
      (some (.obj [("d", "1")]))).2.2.1 "42" (.num 42) (by decide) (by decide)

theorem fetchExnPath_cache_get (st : ClientState) (w : World) (ns : String) :
    dictGet (fetchExnPath st w ns).1.cache ns = some (get_local_file_cache st ns) := by
  unfold fetchExnPath
  rw [update_config_server_cache]
  exact dictGet_dictSet_self _ _ _

theorem fetchExnPath_err (st : ClientState) (w : World) (ns : String) :
    (fetchExnPath st w ns).2 = dirSelectErr w st.config_server_url := by
  unfold fetchExnPath
  rw [update_config_server_err]
  rfl

theorem update_cache_cache (st : ClientState) (ns : String) (d : ConfigDict) :
    (update_cache st ns d).cache = dictSet st.cache ns d := rfl

/-- C1 counterexample: a transport exception on the config fetch combined
with a failing directory resolution (HTTP 500 from the meta server) makes
`fetch_config_by_namespace` raise past its boundary — the `ValueError` from
the failover escapes, so the operation does not never raise. -/
theorem fetch_failure_policy_counterexample :
    (fetch_config_by_namespace
        ⟨"app", "application", [], [], [], some "http://a/", [], []⟩
        ⟨.exn, .resp 500 none, "0"⟩ "application").2 =
      some (PyErr.valueError "service-conf-status") := by decide

/-- C1 (amended): `fetch_configuration` never raises past its boundary; every
failure path of `fetch_config_by_namespace` performs the local-snapshot
fallback read and the cache update before anything can raise — a non-200
status falls back and returns normally, and a transport-level failure
(network exception or malformed 200 body) falls back and then triggers
server-directory failover, whose own failure is the only exception that can
escape; so callers always receive a cache update, and an exception only on
the transport-failure path with a failed failover. -/
theorem fetch_failure_policy_amended (st : ClientState) (w : World) (ns : String) :
    (fetch_configuration st w).2 = none
    ∧ (dictGet (fetch_config_by_namespace st w ns).1.cache ns).isSome = true
    ∧ (∀ status body?, w.config = .resp status body? → status ≠ 200 →
        fetch_config_by_namespace st w ns =
          (update_cache st ns (get_local_file_cache st ns), none))
    ∧ (w.config = HttpWire.exn ∨ w.config = .resp 200 none →
        dictGet (fetch_config_by_namespace st w ns).1.cache ns =
            some (get_local_file_cache st ns)
          ∧ (fetch_config_by_namespace st w ns).2 =
              dirSelectErr w st.config_server_url) := by
  have hfallback : ∀ st' w' ns', w'.config = HttpWire.exn ∨ w'.config = .resp 200 none →
      fetch_config_by_namespace st' w' ns' = fetchExnPath st' w' ns' := by
    intro st' w' ns' h
    rcases h with h | h
    · unfold fetch_config_by_namespace
      rw [h]
    · unfold fetch_config_by_namespace
      rw [h]
      simp
  have hne200 : ∀ status body?, w.config = .resp status body? → status ≠ 200 →
      fetch_config_by_namespace st w ns =
        (update_cache st ns (get_local_file_cache st ns), none) := by
    intro status body? hw h200
    unfold fetch_config_by_namespace
    rw [hw]
    simp [h200]
  have h200some : ∀ body, w.config = .resp 200 (some body) →
      fetch_config_by_namespace st w ns =
        (update_local_file_cache (update_cache st ns (body.configurations?.getD []))
          (body.releaseKey?.getD w.now) (body.configurations?.getD []) ns, none) := by
    intro body hw
    unfold fetch_config_by_namespace
    rw [hw]
    simp
  refine ⟨?_, ?_, ?_, ?_⟩
  · rcases hr : fetch_config_by_namespace st w st.«namespace» with ⟨st', e⟩
    unfold fetch_configuration
    rw [hr]
    cases e <;> rfl
  · cases hw : w.config with
    | exn =>
      rw [hfallback st w ns (Or.inl hw), fetchExnPath_cache_get]
      rfl
    | resp status body? =>
      by_cases h200 : status = 200
      · subst h200
        cases body? with
        | none =>
          rw [hfallback st w ns (Or.inr hw), fetchExnPath_cache_get]
          rfl
        | some body =>
          rw [h200some body hw]
          show (dictGet (update_local_file_cache
              (update_cache st ns (body.configurations?.getD []))
              (body.releaseKey?.getD w.now) (body.configurations?.getD [])
              ns).cache ns).isSome = true
          rw [update_local_file_cache_cache, update_cache_cache, dictGet_dictSet_self]
          rfl
      · rw [hne200 status body? hw h200]
        show (dictGet (update_cache st ns (get_local_file_cache st ns)).cache
          ns).isSome = true
        rw [update_cache_cache, dictGet_dictSet_self]
        rfl
  · exact fun status body? hw h200 => hne200 status body? hw h200
  · intro h
    rw [hfallback st w ns h]
    exact ⟨fetchExnPath_cache_get st w ns, fetchExnPath_err st w ns⟩

/-- Concrete client for the C1 witness. -/
def stW1 : ClientState :=
  ⟨"app", "application", [],
    [("application", "r0")],
    [("app_configuration_application.txt", .jsonOf [("k", "v")])],
    some "http://a/", [], []⟩

/-- World for the C1 witness non-200 branch. -/
def wW1a : World := ⟨.resp 500 none, .resp 200 (some [⟨"http://b/"⟩]), "0"⟩

/-- World for the C1 witness transport-failure branch (failover succeeds). -/
def wW1b : World := ⟨.exn, .resp 200 (some [⟨"http://b/"⟩]), "0"⟩

theorem fetch_failure_policy_witness :
    fetch_config_by_namespace stW1 wW1a "application" =
      (update_cache stW1 "application" (get_local_file_cache stW1 "application"),
        none)
    ∧ dictGet (fetch_config_by_namespace stW1 wW1b "application").1.cache
        "application" = some (get_local_file_cache stW1 "application")
    ∧ (fetch_config_by_namespace stW1 wW1b "application").2 =
        dirSelectErr wW1b stW1.config_server_url
    ∧ (fetch_configuration stW1 wW1b).2 = none := by
  refine ⟨?_, ?_, ?_, ?_⟩
  · exact (fetch_failure_policy_amended stW1 wW1a "application").2.2.1 500 none rfl
      (by decide)
  · exact ((fetch_failure_policy_amended stW1 wW1b "application").2.2.2
      (Or.inl rfl)).1
  · exact ((fetch_failure_policy_amended stW1 wW1b "application").2.2.2
      (Or.inl rfl)).2
  · exact (fetch_failure_policy_amended stW1 wW1b "application").1

end Apollo
